import Mathlib

/-
  Verification development for the garage-worker repository.

  The core under scrutiny is the incremental MQTT state accumulator of
  src/garage_worker/bambulab_api.py (PrinterStateAccumulator, PrinterState)
  together with the peripheral signed-request helper of
  src/garage_worker/alphaess_api.py (AlphaESSAPI._generate_signature and
  AlphaESSAPI._get_headers).

  Python/JSON values are embedded as the tree type JVal, with dicts as the
  mutually inductive JObj so that deep recursion stays structural (and hence
  kernel-computable).  Python floats are modelled as exact rationals
  (PyFloat); the decimal values the repository and its claims exercise
  (210.5, 0.4, 1.75, 0.0) are handled exactly, so no IEEE-754 rounding
  behaviour is load-bearing.  Fallible Python operations (int(), float(),
  attribute access, subscripting, iteration) are embedded in the
  Except PyErr monad whose constructors mirror the exception classes the
  interpreter would raise.  Wall-clock timestamps (datetime.now, time.time)
  are passed in as explicit arguments.
-/

/-- Exceptions the embedded Python fragments can raise. -/
inductive PyErr where
  | typeError
  | valueError
  | attributeError
  | keyError
deriving DecidableEq

/-- Python float, modelled as an exact rational number num/den (den is
positive for every value this development constructs; mkFloat normalises). -/
structure PyFloat where
  num : Int
  den : Nat
deriving DecidableEq

/-- Fuel-driven Euclidean gcd; fuel a+1 always suffices because the first
argument strictly decreases at every step. -/
def gcdF : Nat → Nat → Nat → Nat
  | 0, _, b => b
  | _ + 1, 0, b => b
  | f + 1, a + 1, b => gcdF f (b % (a + 1)) (a + 1)

/-- Kernel-computable gcd (Nat.gcd is well-founded and does not reduce in
the kernel). -/
def natGcd (a b : Nat) : Nat := gcdF (a + 1) a b

/-- Negation of a Nat into Int by constructor (kernel-reduction friendly). -/
def intNegOfNat : Nat → Int
  | 0 => Int.ofNat 0
  | k + 1 => Int.negSucc k

/-- Build a normalised PyFloat from an integer numerator and a Nat
denominator (the division by the gcd is exact). -/
def mkFloat (n : Int) (d : Nat) : PyFloat :=
  let g := natGcd n.natAbs d
  if g = 0 then ⟨0, 0⟩
  else
    match n with
    | Int.ofNat m => ⟨Int.ofNat (m / g), d / g⟩
    | Int.negSucc m => ⟨intNegOfNat ((m + 1) / g), d / g⟩

/-- Round p/d (d positive) to the nearest integer, half to even. -/
def roundHalfEvenNat (p d : Nat) : Nat :=
  let f := p / d
  let r := p % d
  if 2 * r < d then f
  else if d < 2 * r then f + 1
  else if f % 2 = 0 then f else f + 1

/-- Python round(x, 2): round half to even at two decimal places (rounding
is symmetric around zero, so the sign can be split off).  CPython rounds
the nearest-double value; on the exact decimals exercised here the two
agree. -/
def PyFloat.round2 (x : PyFloat) : PyFloat :=
  match x.num with
  | Int.ofNat m => mkFloat (Int.ofNat (roundHalfEvenNat (m * 100) x.den)) 100
  | Int.negSucc m => mkFloat (intNegOfNat (roundHalfEvenNat ((m + 1) * 100) x.den)) 100

/-- Python int(x) applied to a float: truncation toward zero. -/
def PyFloat.toIntTrunc (x : PyFloat) : Int :=
  match x.num with
  | Int.ofNat m => Int.ofNat (m / x.den)
  | Int.negSucc m => intNegOfNat ((m + 1) / x.den)

mutual
/-- Python/JSON values.  JVal.null models Python None. -/
inductive JVal where
  | null
  | bool (b : Bool)
  | int (n : Int)
  | num (x : PyFloat)
  | str (s : String)
  | arr (elems : List JVal)
  | obj (fields : JObj)

/-- A Python dict with string keys, in insertion order.  Keys of a real
dict are unique; predicates below state that where a proof needs it. -/
inductive JObj where
  | nil
  | cons (k : String) (v : JVal) (tl : JObj)
end

/-- Convert a list of pairs into a JObj (for readable literals). -/
def JObj.ofList : List (String × JVal) → JObj
  | [] => JObj.nil
  | (k, v) :: rest => JObj.cons k v (JObj.ofList rest)

def JObj.isEmpty : JObj → Bool
  | JObj.nil => true
  | JObj.cons _ _ _ => false

/-- The keys of a dict, in order. -/
def JObj.keys : JObj → List String
  | JObj.nil => []
  | JObj.cons k _ rest => k :: JObj.keys rest

/-- First-occurrence lookup (dict access by key). -/
def lookupKey : JObj → String → Option JVal
  | JObj.nil, _ => none
  | JObj.cons k' v rest, k => if k' = k then some v else lookupKey rest k

/-- Dict assignment base[key] = value: replace in place keeping the entry
position, else append at the end (CPython dict semantics). -/
def setKey : JObj → String → JVal → JObj
  | JObj.nil, k, v => JObj.cons k v JObj.nil
  | JObj.cons k' v' rest, k, v =>
      if k' = k then JObj.cons k v rest else JObj.cons k' v' (setKey rest k v)

mutual
/-- One entry of PrinterStateAccumulator._deep_merge: given the existing
value at a key (if any) and the incoming value, produce the stored value.
If both are dicts the merge recurses, otherwise the incoming value
overwrites wholesale. -/
def deepMergeVal : Option JVal → JVal → JVal
  | some (JVal.obj bo), JVal.obj uo => JVal.obj (deepMergeObj bo uo)
  | _, v => v

/-- PrinterStateAccumulator._deep_merge in functional form: fold the update
dict entry by entry into the base dict. -/
def deepMergeObj : JObj → JObj → JObj
  | base, JObj.nil => base
  | base, JObj.cons k v rest =>
      deepMergeObj (setKey base k (deepMergeVal (lookupKey base k) v)) rest
end

/-- Python truthiness for the embedded values. -/
def pyFalsy : JVal → Bool
  | JVal.null => true
  | JVal.bool b => !b
  | JVal.int n => n == 0
  | JVal.num x => x.num == 0
  | JVal.str s => s == ""
  | JVal.arr xs => xs.isEmpty
  | JVal.obj o => o.isEmpty

/-- Does the (pattern) list occur as a prefix of the (subject) list? -/
def startsWithL : List Char → List Char → Bool
  | [], _ => true
  | _ :: _, [] => false
  | p :: ps, c :: cs => p == c && startsWithL ps cs

/-- Substring test, as Python needle in haystack for strings. -/
def isSubstrL (pat : List Char) : List Char → Bool
  | [] => pat.isEmpty
  | c :: cs => startsWithL pat (c :: cs) || isSubstrL pat cs

/-- Python equality of an arbitrary value with a string: among JSON values
only an equal string compares equal. -/
def pyEqStr (v : JVal) (s : String) : Bool :=
  match v with
  | JVal.str t => t = s
  | _ => false

/-- Python membership test key in v.  Dicts test keys, lists test element
equality, strings test substrings; other values raise TypeError (argument
not iterable). -/
def pyContains (v : JVal) (k : String) : Except PyErr Bool :=
  match v with
  | JVal.obj o => Except.ok (lookupKey o k).isSome
  | JVal.arr xs => Except.ok (xs.any (fun e => pyEqStr e k))
  | JVal.str s => Except.ok (isSubstrL k.data s.data)
  | _ => Except.error PyErr.typeError

/-- Python subscripting v[key] with a string key.  Only dicts support it;
strings and lists demand integer indices (TypeError), other values are not
subscriptable (TypeError).  A missing dict key raises KeyError. -/
def pyGetItemStr (v : JVal) (k : String) : Except PyErr JVal :=
  match v with
  | JVal.obj o =>
      match lookupKey o k with
      | some w => Except.ok w
      | none => Except.error PyErr.keyError
  | _ => Except.error PyErr.typeError

/-- Python v.get(key, default): only dicts have the attribute, any other
receiver raises AttributeError. -/
def pdGet (v : JVal) (k : String) (dflt : JVal) : Except PyErr JVal :=
  match v with
  | JVal.obj o => Except.ok ((lookupKey o k).getD dflt)
  | _ => Except.error PyErr.attributeError

/-- Python iteration over a value: lists yield elements, dicts yield keys,
strings yield one-character strings; other values raise TypeError. -/
def pyIter (v : JVal) : Except PyErr (List JVal) :=
  match v with
  | JVal.arr xs => Except.ok xs
  | JVal.obj o => Except.ok (o.keys.map JVal.str)
  | JVal.str s => Except.ok (s.data.map (fun c => JVal.str (String.mk [c])))
  | _ => Except.error PyErr.typeError

/-- Left-to-right effectful map over Except, aborting at the first error
(the order a Python list comprehension evaluates in). -/
def mapME {α β : Type} (f : α → Except PyErr β) : List α → Except PyErr (List β)
  | [] => Except.ok []
  | a :: rest => do
      let b ← f a
      let bs ← mapME f rest
      pure (b :: bs)

/-- ASCII whitespace accepted by Python int()/float() around a literal. -/
def isSpaceCh (c : Char) : Bool :=
  c == ' ' || c == '\t' || c == '\n' || c == '\r' ||
    c == Char.ofNat 11 || c == Char.ofNat 12

def trimSpaces (cs : List Char) : List Char :=
  ((cs.dropWhile isSpaceCh).reverse.dropWhile isSpaceCh).reverse

def digitVal (c : Char) : Nat := c.toNat - 48

/-- Consume a Python digit group (digits with single underscores strictly
between digits), returning the value, the number of digits consumed and the
rest.  Underscores not followed by a digit are left unconsumed. -/
def digitsTake : Nat → Nat → List Char → Nat × Nat × List Char
  | acc, cnt, [] => (acc, cnt, [])
  | acc, cnt, '_' :: c :: rest =>
      if cnt ≠ 0 && c.isDigit then digitsTake (acc * 10 + digitVal c) (cnt + 1) rest
      else (acc, cnt, '_' :: c :: rest)
  | acc, cnt, c :: rest =>
      if c.isDigit then digitsTake (acc * 10 + digitVal c) (cnt + 1) rest
      else (acc, cnt, c :: rest)

/-- Python int(string): optional surrounding whitespace, optional sign, a
nonempty digit group, nothing else.  Returns none where int() raises
ValueError. -/
def pyIntOfString (cs0 : List Char) : Option Int :=
  let t := trimSpaces cs0
  let signed : Bool × List Char :=
    match t with
    | '+' :: r => (false, r)
    | '-' :: r => (true, r)
    | r => (false, r)
  let (v, cnt, rest) := digitsTake 0 0 signed.2
  if cnt = 0 then none
  else if rest.isEmpty then some (if signed.1 then -(v : Int) else (v : Int))
  else none

/-- Python float(string) for finite decimal literals: optional sign,
digits with an optional fractional part (at least one digit overall) and an
optional decimal exponent; underscores as in int().  The non-finite
spellings (inf, nan) have no rational counterpart and are mapped to none;
the repository never feeds them to float(). -/
def pyFloatOfString (cs0 : List Char) : Option PyFloat :=
  let t := trimSpaces cs0
  let signed : Bool × List Char :=
    match t with
    | '+' :: r => (false, r)
    | '-' :: r => (true, r)
    | r => (false, r)
  let (iv, ic, r1) := digitsTake 0 0 signed.2
  let mant : Option (Nat × Nat × List Char) :=
    match r1 with
    | '.' :: r2 =>
        let (fv, fc, r3) := digitsTake 0 0 r2
        if ic + fc = 0 then none else some (iv * 10 ^ fc + fv, fc, r3)
    | _ => if ic = 0 then none else some (iv, 0, r1)
  match mant with
  | none => none
  | some (m, fracLen, r4) =>
      let expo : Option (Int × List Char) :=
        match r4 with
        | 'e' :: r5 =>
            match r5 with
            | '+' :: r6 =>
                let (ev, ec, r7) := digitsTake 0 0 r6
                if ec = 0 then none else some ((ev : Int), r7)
            | '-' :: r6 =>
                let (ev, ec, r7) := digitsTake 0 0 r6
                if ec = 0 then none else some (-(ev : Int), r7)
            | r6 =>
                let (ev, ec, r7) := digitsTake 0 0 r6
                if ec = 0 then none else some ((ev : Int), r7)
        | 'E' :: r5 =>
            match r5 with
            | '+' :: r6 =>
                let (ev, ec, r7) := digitsTake 0 0 r6
                if ec = 0 then none else some ((ev : Int), r7)
            | '-' :: r6 =>
                let (ev, ec, r7) := digitsTake 0 0 r6
                if ec = 0 then none else some (-(ev : Int), r7)
            | r6 =>
                let (ev, ec, r7) := digitsTake 0 0 r6
                if ec = 0 then none else some ((ev : Int), r7)
        | r5 => some (0, r5)
      match expo with
      | none => none
      | some (e, rest) =>
          if rest.isEmpty then
            let n : Int := if signed.1 then -(m : Int) else (m : Int)
            let s : Int := e - (fracLen : Int)
            some (if 0 ≤ s then mkFloat (n * (10 ^ s.toNat : Nat)) 1
                  else mkFloat n (10 ^ (-s).toNat))
          else none

/-- Python float(x): ints and bools convert, floats pass through, strings
are parsed (ValueError if malformed), anything else raises TypeError. -/
def pyFloat : JVal → Except PyErr PyFloat
  | JVal.int n => Except.ok ⟨n, 1⟩
  | JVal.num x => Except.ok x
  | JVal.bool b => Except.ok ⟨if b then 1 else 0, 1⟩
  | JVal.str s =>
      match pyFloatOfString s.data with
      | some x => Except.ok x
      | none => Except.error PyErr.valueError
  | _ => Except.error PyErr.typeError

/-- Python int(x): ints pass through, bools convert, floats truncate toward
zero, strings are parsed as integer literals (ValueError if malformed),
anything else raises TypeError. -/
def pyInt : JVal → Except PyErr Int
  | JVal.int n => Except.ok n
  | JVal.num x => Except.ok x.toIntTrunc
  | JVal.bool b => Except.ok (if b then 1 else 0)
  | JVal.str s =>
      match pyIntOfString s.data with
      | some n => Except.ok n
      | none => Except.error PyErr.valueError
  | _ => Except.error PyErr.typeError

/-- Decimal digits of the fractional part r/d, at most fuel digits (the
expansions this development evaluates all terminate well before that). -/
def fracDigits : Nat → Nat → Nat → String
  | 0, _, _ => ""
  | _ + 1, 0, _ => ""
  | fuel + 1, r, d =>
      String.mk [Char.ofNat (48 + (r * 10) / d)] ++ fracDigits fuel ((r * 10) % d) d

/-- Python repr of a float, for the terminating decimal expansions that
occur here (integral floats render with a trailing .0, as Python does). -/
def floatRepr (x : PyFloat) : String :=
  let sign := if x.num < 0 then "-" else ""
  let ip := toString (x.num.natAbs / x.den)
  let fr := fracDigits 17 (x.num.natAbs % x.den) x.den
  sign ++ ip ++ "." ++ (if fr = "" then "0" else fr)

mutual
/-- Python repr of a value (string escaping simplified to plain single
quotes; no claim exercises repr of a string). -/
def pyReprV : JVal → String
  | JVal.null => "None"
  | JVal.bool true => "True"
  | JVal.bool false => "False"
  | JVal.int n => toString n
  | JVal.num x => floatRepr x
  | JVal.str s => String.mk [Char.ofNat 39] ++ s ++ String.mk [Char.ofNat 39]
  | JVal.arr xs => "[" ++ pyReprL xs ++ "]"
  | JVal.obj o => "\x7b" ++ pyReprO o ++ "\x7d"

def pyReprL : List JVal → String
  | [] => ""
  | [x] => pyReprV x
  | x :: rest => pyReprV x ++ ", " ++ pyReprL rest

def pyReprO : JObj → String
  | JObj.nil => ""
  | JObj.cons k v JObj.nil =>
      String.mk [Char.ofNat 39] ++ k ++ String.mk [Char.ofNat 39] ++ ": " ++ pyReprV v
  | JObj.cons k v rest =>
      String.mk [Char.ofNat 39] ++ k ++ String.mk [Char.ofNat 39] ++ ": " ++ pyReprV v
        ++ ", " ++ pyReprO rest
end

/-- Python str(x): strings unwrapped, everything else as repr. -/
def pyStr : JVal → String
  | JVal.str s => s
  | v => pyReprV v

/-- PrinterState._parse_wifi_signal helper: str.replace("dBm", ""),
removing every (leftmost, non-overlapping) occurrence. -/
def pyReplaceDBm : List Char → List Char
  | [] => []
  | 'd' :: 'B' :: 'm' :: rest => pyReplaceDBm rest
  | c :: rest => c :: pyReplaceDBm rest

/-- PrinterState._parse_wifi_signal: falsy input gives 0; otherwise
int(signal_str.replace("dBm", "")), with ValueError (bad literal) and
AttributeError (non-string receiver of .replace) both caught and mapped
to 0. -/
def parse_wifi_signal (v : JVal) : Int :=
  if pyFalsy v then 0
  else
    match v with
    | JVal.str s => (pyIntOfString (pyReplaceDBm s.data)).getD 0
    | _ => 0

/-- FilamentTray dataclass: fields as FilamentTray.from_dict stores them
(str()/int()/float()-converted fields typed, the rest raw). -/
structure FilamentTray where
  tray_id : String
  tray_id_name : JVal
  tray_type : JVal
  tray_sub_brands : JVal
  tray_color : JVal
  remain_percent : JVal
  tray_weight : Int
  tray_diameter : PyFloat
  tray_temp : Int
  nozzle_temp_min : Int
  nozzle_temp_max : Int
  state : JVal
  tag_uid : JVal
  tray_uuid : JVal

/-- FilamentTray.from_dict, evaluating the constructor arguments in source
order (the default 1.75 for tray_diameter is the exact dyadic 7/4). -/
def FilamentTray.from_dict (d : JVal) : Except PyErr FilamentTray := do
  let idv ← pdGet d "id" (JVal.str "")
  let tray_id_name ← pdGet d "tray_id_name" (JVal.str "")
  let tray_type ← pdGet d "tray_type" (JVal.str "")
  let tray_sub_brands ← pdGet d "tray_sub_brands" (JVal.str "")
  let tray_color ← pdGet d "tray_color" (JVal.str "")
  let remain_percent ← pdGet d "remain" (JVal.int (-1))
  let tray_weight ← pyInt (← pdGet d "tray_weight" (JVal.int 0))
  let tray_diameter ← pyFloat (← pdGet d "tray_diameter" (JVal.num ⟨7, 4⟩))
  let tray_temp ← pyInt (← pdGet d "tray_temp" (JVal.int 0))
  let nozzle_temp_min ← pyInt (← pdGet d "nozzle_temp_min" (JVal.int 0))
  let nozzle_temp_max ← pyInt (← pdGet d "nozzle_temp_max" (JVal.int 0))
  let state ← pdGet d "state" (JVal.int 0)
  let tag_uid ← pdGet d "tag_uid" (JVal.str "")
  let tray_uuid ← pdGet d "tray_uuid" (JVal.str "")
  pure
    { tray_id := pyStr idv, tray_id_name := tray_id_name, tray_type := tray_type,
      tray_sub_brands := tray_sub_brands, tray_color := tray_color,
      remain_percent := remain_percent, tray_weight := tray_weight,
      tray_diameter := tray_diameter, tray_temp := tray_temp,
      nozzle_temp_min := nozzle_temp_min, nozzle_temp_max := nozzle_temp_max,
      state := state, tag_uid := tag_uid, tray_uuid := tray_uuid }

/-- AMSUnit dataclass, as AMSUnit.from_dict stores it. -/
structure AMSUnit where
  ams_id : JVal
  unit_id : String
  humidity : Int
  humidity_raw : Int
  temp : PyFloat
  dry_time : JVal
  trays : List FilamentTray

/-- AMSUnit.from_dict: the tray list comprehension runs first, then the
constructor arguments in source order. -/
def AMSUnit.from_dict (d : JVal) : Except PyErr AMSUnit := do
  let trayItems ← pyIter (← pdGet d "tray" (JVal.arr []))
  let trays ← mapME FilamentTray.from_dict trayItems
  let ams_id ← pdGet d "ams_id" (JVal.str "")
  let idv ← pdGet d "id" (JVal.str "")
  let humidity ← pyInt (← pdGet d "humidity" (JVal.int (-1)))
  let humidity_raw ← pyInt (← pdGet d "humidity_raw" (JVal.int (-1)))
  let temp ← pyFloat (← pdGet d "temp" (JVal.num ⟨0, 1⟩))
  let dry_time ← pdGet d "dry_time" (JVal.int 0)
  pure
    { ams_id := ams_id, unit_id := pyStr idv, humidity := humidity,
      humidity_raw := humidity_raw, temp := temp, dry_time := dry_time,
      trays := trays }

/-- AMSState dataclass, as AMSState.from_dict stores it. -/
structure AMSState where
  ams_exist_bits : JVal
  tray_exist_bits : JVal
  tray_now : JVal
  tray_pre : JVal
  tray_tar : JVal
  ams_status : JVal
  ams_rfid_status : JVal
  units : List AMSUnit

/-- AMSState.from_dict: the unit list comprehension runs first, then the
constructor arguments in source order. -/
def AMSState.from_dict (d : JVal) : Except PyErr AMSState := do
  let unitItems ← pyIter (← pdGet d "ams" (JVal.arr []))
  let units ← mapME AMSUnit.from_dict unitItems
  let ams_exist_bits ← pdGet d "ams_exist_bits" (JVal.str "")
  let tray_exist_bits ← pdGet d "tray_exist_bits" (JVal.str "")
  let tray_now ← pdGet d "tray_now" (JVal.str "")
  let tray_pre ← pdGet d "tray_pre" (JVal.str "")
  let tray_tar ← pdGet d "tray_tar" (JVal.str "")
  let ams_status ← pdGet d "ams_status" (JVal.int 0)
  let ams_rfid_status ← pdGet d "ams_rfid_status" (JVal.int 0)
  pure
    { ams_exist_bits := ams_exist_bits, tray_exist_bits := tray_exist_bits,
      tray_now := tray_now, tray_pre := tray_pre, tray_tar := tray_tar,
      ams_status := ams_status, ams_rfid_status := ams_rfid_status,
      units := units }

/-- PrinterState dataclass, with the field types from_mqtt_data actually
stores: float()/int()/str()-converted fields typed, raw .get results kept
as JVal (vt_tray is JVal.null for Python None). -/
structure PrinterState where
  timestamp : String
  sequence_id : String
  nozzle_temp : PyFloat
  nozzle_target_temp : PyFloat
  bed_temp : PyFloat
  bed_target_temp : PyFloat
  chamber_temp : PyFloat
  gcode_state : JVal
  print_percent : Int
  remaining_time_min : Int
  layer_num : Int
  total_layer_num : Int
  print_line_number : Int
  gcode_file : JVal
  subtask_name : JVal
  subtask_id : JVal
  task_id : JVal
  project_id : JVal
  profile_id : JVal
  print_type : JVal
  fan_gear : Int
  cooling_fan_speed : Int
  heatbreak_fan_speed : Int
  wifi_signal : JVal
  wifi_signal_dbm : Int
  nozzle_diameter : PyFloat
  nozzle_type : JVal
  home_flag : Int
  hw_switch_state : Int
  mc_print_stage : String
  mc_print_sub_stage : Int
  print_error : Int
  stg_cur : Int
  ams : Option AMSState
  upgrade_state : JVal
  version : JVal
  ipcam : JVal
  timelapse : JVal
  lights_report : JVal
  hms : JVal
  spd_lvl : Int
  spd_mag : Int
  vt_tray : JVal
  raw_data : JObj

/-- PrinterState.from_mqtt_data: build a state from (the accumulated) MQTT
data.  Effects happen in source order: the ams membership test and parse,
the wifi_signal fetch, then each constructor argument.  The nozzle diameter
default 0.4 is modelled by the exact 2/5. -/
def PrinterState.from_mqtt_data (data : JObj) (timestamp : String) :
    Except PyErr PrinterState := do
  let print_data := (lookupKey data "print").getD (JVal.obj JObj.nil)
  let hasAms ← pyContains print_data "ams"
  let ams ←
    if hasAms then do
      let amsData ← pyGetItemStr print_data "ams"
      let a ← AMSState.from_dict amsData
      pure (some a)
    else
      pure none
  let wifi_signal ← pdGet print_data "wifi_signal" (JVal.str "")
  let sequence_id_v ← pdGet print_data "sequence_id" (JVal.str "")
  let nozzle_temp ← pyFloat (← pdGet print_data "nozzle_temper" (JVal.num ⟨0, 1⟩))
  let nozzle_target_temp ← pyFloat (← pdGet print_data "nozzle_target_temper" (JVal.num ⟨0, 1⟩))
  let bed_temp ← pyFloat (← pdGet print_data "bed_temper" (JVal.num ⟨0, 1⟩))
  let bed_target_temp ← pyFloat (← pdGet print_data "bed_target_temper" (JVal.num ⟨0, 1⟩))
  let chamber_temp ← pyFloat (← pdGet print_data "chamber_temper" (JVal.num ⟨0, 1⟩))
  let gcode_state ← pdGet print_data "gcode_state" (JVal.str "")
  let print_percent ← pyInt (← pdGet print_data "mc_percent" (JVal.int 0))
  let remaining_time_min ← pyInt (← pdGet print_data "mc_remaining_time" (JVal.int 0))
  let layer_num ← pyInt (← pdGet print_data "layer_num" (JVal.int 0))
  let total_layer_num ← pyInt (← pdGet print_data "total_layer_num" (JVal.int 0))
  let print_line_number ← pyInt (← pdGet print_data "mc_print_line_number" (JVal.int 0))
  let gcode_file ← pdGet print_data "gcode_file" (JVal.str "")
  let subtask_name ← pdGet print_data "subtask_name" (JVal.str "")
  let subtask_id ← pdGet print_data "subtask_id" (JVal.str "")
  let task_id ← pdGet print_data "task_id" (JVal.str "")
  let project_id ← pdGet print_data "project_id" (JVal.str "")
  let profile_id ← pdGet print_data "profile_id" (JVal.str "")
  let print_type ← pdGet print_data "print_type" (JVal.str "")
  let fan_gear ← pyInt (← pdGet print_data "fan_gear" (JVal.int 0))
  let cooling_fan_speed ← pyInt (← pdGet print_data "cooling_fan_speed" (JVal.int 0))
  let heatbreak_fan_speed ← pyInt (← pdGet print_data "heatbreak_fan_speed" (JVal.int 0))
  let nozzle_diameter ← pyFloat (← pdGet print_data "nozzle_diameter" (JVal.num ⟨2, 5⟩))
  let nozzle_type ← pdGet print_data "nozzle_type" (JVal.str "")
  let home_flag ← pyInt (← pdGet print_data "home_flag" (JVal.int 0))
  let hw_switch_state ← pyInt (← pdGet print_data "hw_switch_state" (JVal.int 0))
  let mc_print_stage_v ← pdGet print_data "mc_print_stage" (JVal.str "")
  let mc_print_sub_stage ← pyInt (← pdGet print_data "mc_print_sub_stage" (JVal.int 0))
  let print_error ← pyInt (← pdGet print_data "print_error" (JVal.int 0))
  let stg_cur ← pyInt (← pdGet print_data "stg_cur" (JVal.int 0))
  let upgrade_state ← pdGet print_data "upgrade_state" (JVal.obj JObj.nil)
  let version ← pdGet print_data "version" (JVal.obj JObj.nil)
  let ipcam ← pdGet print_data "ipcam" (JVal.obj JObj.nil)
  let timelapse ← pdGet print_data "timelapse" (JVal.obj JObj.nil)
  let lights_report ← pdGet print_data "lights_report" (JVal.arr [])
  let hms ← pdGet print_data "hms" (JVal.arr [])
  let spd_lvl ← pyInt (← pdGet print_data "spd_lvl" (JVal.int 0))
  let spd_mag ← pyInt (← pdGet print_data "spd_mag" (JVal.int 0))
  let vt_tray ← pdGet print_data "vt_tray" JVal.null
  pure
    { timestamp := timestamp, sequence_id := pyStr sequence_id_v,
      nozzle_temp := nozzle_temp, nozzle_target_temp := nozzle_target_temp,
      bed_temp := bed_temp, bed_target_temp := bed_target_temp,
      chamber_temp := chamber_temp, gcode_state := gcode_state,
      print_percent := print_percent, remaining_time_min := remaining_time_min,
      layer_num := layer_num, total_layer_num := total_layer_num,
      print_line_number := print_line_number, gcode_file := gcode_file,
      subtask_name := subtask_name, subtask_id := subtask_id,
      task_id := task_id, project_id := project_id, profile_id := profile_id,
      print_type := print_type, fan_gear := fan_gear,
      cooling_fan_speed := cooling_fan_speed,
      heatbreak_fan_speed := heatbreak_fan_speed, wifi_signal := wifi_signal,
      wifi_signal_dbm := parse_wifi_signal wifi_signal,
      nozzle_diameter := nozzle_diameter, nozzle_type := nozzle_type,
      home_flag := home_flag, hw_switch_state := hw_switch_state,
      mc_print_stage := pyStr mc_print_stage_v,
      mc_print_sub_stage := mc_print_sub_stage, print_error := print_error,
      stg_cur := stg_cur, ams := ams, upgrade_state := upgrade_state,
      version := version, ipcam := ipcam, timelapse := timelapse,
      lights_report := lights_report, hms := hms, spd_lvl := spd_lvl,
      spd_mag := spd_mag, vt_tray := vt_tray, raw_data := data }

/-- The loop body of PrinterState._get_chamber_light_status: scan the
lights for node == "chamber_light" and return its mode (default
"unknown"). -/
def chamberScan : List JVal → Except PyErr JVal
  | [] => Except.ok (JVal.str "unknown")
  | l :: rest => do
      let n ← pdGet l "node" JVal.null
      if pyEqStr n "chamber_light" then pdGet l "mode" (JVal.str "unknown")
      else chamberScan rest

/-- PrinterState._get_chamber_light_status. -/
def PrinterState.get_chamber_light_status (st : PrinterState) : Except PyErr JVal := do
  chamberScan (← pyIter st.lights_report)

/-- One filament summary record of get_snapshot. -/
def trayRecord (t : FilamentTray) : JVal :=
  JVal.obj (JObj.ofList
    [("tray_id", JVal.str t.tray_id), ("slot", t.tray_id_name),
     ("type", t.tray_type), ("brand", t.tray_sub_brands),
     ("color", t.tray_color), ("remain_percent", t.remain_percent),
     ("tray_diameter", JVal.num t.tray_diameter),
     ("nozzle_temp_min", JVal.int t.nozzle_temp_min),
     ("nozzle_temp_max", JVal.int t.nozzle_temp_max)])

/-- PrinterState.get_snapshot: the flat snapshot dict in source key order,
with the conditional AMS summary and external-spool sections appended. -/
def PrinterState.get_snapshot (st : PrinterState) : Except PyErr JObj := do
  let chamber_light ← st.get_chamber_light_status
  let ipcam_record ← pdGet st.ipcam "ipcam_record" (JVal.str "")
  let timelapse_v ← pdGet st.ipcam "timelapse" (JVal.str "")
  let base : List (String × JVal) :=
    [("timestamp", JVal.str st.timestamp),
     ("nozzle_temp", JVal.num st.nozzle_temp.round2),
     ("nozzle_target_temp", JVal.num st.nozzle_target_temp.round2),
     ("bed_temp", JVal.num st.bed_temp.round2),
     ("bed_target_temp", JVal.num st.bed_target_temp.round2),
     ("chamber_temp", JVal.num st.chamber_temp.round2),
     ("nozzle_diameter", JVal.num st.nozzle_diameter),
     ("nozzle_type", st.nozzle_type),
     ("gcode_state", st.gcode_state),
     ("print_type", st.print_type),
     ("print_percent", JVal.int st.print_percent),
     ("remaining_time_min", JVal.int st.remaining_time_min),
     ("layer_num", JVal.int st.layer_num),
     ("total_layer_num", JVal.int st.total_layer_num),
     ("print_line_number", JVal.int st.print_line_number),
     ("subtask_name", st.subtask_name),
     ("gcode_file", st.gcode_file),
     ("cooling_fan_speed", JVal.int st.cooling_fan_speed),
     ("heatbreak_fan_speed", JVal.int st.heatbreak_fan_speed),
     ("wifi_signal_dbm", JVal.int st.wifi_signal_dbm),
     ("print_error", JVal.int st.print_error),
     ("has_errors", JVal.bool (st.print_error != 0)),
     ("lights_report", st.lights_report),
     ("chamber_light", chamber_light),
     ("ipcam_record", ipcam_record),
     ("timelapse", timelapse_v)]
  let withAms : List (String × JVal) :=
    match st.ams with
    | none => base
    | some a =>
        let filaments :=
          (a.units.map (fun u =>
            (u.trays.filter (fun t => !(pyFalsy t.tray_type))).map trayRecord)).flatten
        let l1 := base ++
          [("ams_unit_count", JVal.int (a.units.length : Int)),
           ("ams_status", a.ams_status),
           ("ams_exist_bits", a.ams_exist_bits),
           ("tray_exist_bits", a.tray_exist_bits),
           ("filaments", JVal.arr filaments)]
        match a.units with
        | [] => l1
        | u :: _ => l1 ++
            [("ams_humidity", JVal.int u.humidity),
             ("ams_humidity_raw", JVal.int u.humidity_raw),
             ("ams_temp", JVal.num u.temp)]
  if pyFalsy st.vt_tray then
    pure (JObj.ofList withAms)
  else do
    let t ← pdGet st.vt_tray "tray_type" (JVal.str "")
    let c ← pdGet st.vt_tray "tray_color" (JVal.str "")
    let r ← pdGet st.vt_tray "remain" (JVal.int 0)
    pure (JObj.ofList (withAms ++
      [("external_spool", JVal.obj (JObj.ofList
        [("type", t), ("color", c), ("remain", r)]))]))

/-- PrinterStateAccumulator.  In the source, _state_data is created as the
one-key dict with "print" mapped to a dict, reset recreates exactly that,
and update only ever mutates _state_data["print"] in place through
_deep_merge (which keeps it a dict); so the accumulator state is faithfully
represented by that inner dict, the last-update timestamp and the update
counter. -/
structure PrinterStateAccumulator where
  state_print : JObj
  last_update : Option String
  update_count : Nat

/-- PrinterStateAccumulator.__init__. -/
def PrinterStateAccumulator.init : PrinterStateAccumulator :=
  { state_print := JObj.nil, last_update := none, update_count := 0 }

/-- The full _state_data dict of an accumulator. -/
def PrinterStateAccumulator.state_data (acc : PrinterStateAccumulator) : JObj :=
  JObj.cons "print" (JVal.obj acc.state_print) JObj.nil

/-- PrinterStateAccumulator.update with the wall clock passed explicitly.
The timestamp is taken and the counter incremented first; then the
membership test "print" in data runs (TypeError for non-iterable input);
if it succeeds and finds the key, data["print"] is fetched (TypeError for
string or list input) and deep-merged (AttributeError when it is not a
dict); finally the complete state is rebuilt by from_mqtt_data.  The
mutated accumulator is returned alongside the result, error or not, as the
Python object keeps its mutations when update raises. -/
def PrinterStateAccumulator.update (acc : PrinterStateAccumulator) (data : JVal)
    (now : String) : PrinterStateAccumulator × Except PyErr PrinterState :=
  let acc1 := { acc with last_update := some now, update_count := acc.update_count + 1 }
  match pyContains data "print" with
  | Except.error e => (acc1, Except.error e)
  | Except.ok false => (acc1, PrinterState.from_mqtt_data acc1.state_data now)
  | Except.ok true =>
      match pyGetItemStr data "print" with
      | Except.error e => (acc1, Except.error e)
      | Except.ok (JVal.obj upd) =>
          let acc2 := { acc1 with state_print := deepMergeObj acc1.state_print upd }
          (acc2, PrinterState.from_mqtt_data acc2.state_data now)
      | Except.ok _ => (acc1, Except.error PyErr.attributeError)

/-- PrinterStateAccumulator.get_state: rebuild the state without updating,
timestamped with self._last_update or now() (Python or is truthiness
based, so an empty stored timestamp would also fall back to now). -/
def PrinterStateAccumulator.get_state (acc : PrinterStateAccumulator)
    (now : String) : Except PyErr PrinterState :=
  let ts :=
    match acc.last_update with
    | some t => if t = "" then now else t
    | none => now
  PrinterState.from_mqtt_data acc.state_data ts

/-- PrinterStateAccumulator.reset: back to the freshly constructed state. -/
def PrinterStateAccumulator.reset (_acc : PrinterStateAccumulator) :
    PrinterStateAccumulator :=
  PrinterStateAccumulator.init

/-- Apply a whole sequence of updates (each with its wall-clock reading),
keeping the accumulator that results from each call. -/
def PrinterStateAccumulator.applySeq (acc : PrinterStateAccumulator) :
    List (JVal × String) → PrinterStateAccumulator
  | [] => acc
  | (d, t) :: rest => ((acc.update d t).1).applySeq rest

/-- Snapshot derivation on the accumulated document: get_state followed by
get_snapshot. -/
def PrinterStateAccumulator.derive (acc : PrinterStateAccumulator)
    (now : String) : Except PyErr JObj :=
  (acc.get_state now).bind PrinterState.get_snapshot

/-
  The signed-request helper of src/garage_worker/alphaess_api.py.
  _generate_signature hashes appId + appSecret + str(timestamp) with
  SHA-512 and returns the lowercase hex digest; _get_headers attaches the
  appId, the timestamp and that signature to the request headers.  SHA-512
  is implemented below over byte lists, with 64-bit words as Nats reduced
  mod 2^64; the round and initial-hash constants are computed from the
  fractional parts of the cube and square roots of the first primes, as
  FIPS 180-4 defines them.
-/

/-- Integer cube root by binary search (invariant lo^3 <= n < hi^3);
fuel 2000 covers numbers far beyond the 200-bit inputs used here. -/
def icbrtAux : Nat → Nat → Nat → Nat → Nat
  | 0, lo, _, _ => lo
  | fuel + 1, lo, hi, n =>
      if hi ≤ lo + 1 then lo
      else
        let mid := (lo + hi) / 2
        if mid * mid * mid ≤ n then icbrtAux fuel mid hi n
        else icbrtAux fuel lo mid n

def icbrt (n : Nat) : Nat := icbrtAux 2000 0 (n + 1) n

/-- The first eighty primes (whose cube roots give the SHA-512 round
constants). -/
def sha512Primes : List Nat :=
  [2, 3, 5, 7, 11, 13, 17, 19, 23, 29, 31, 37, 41, 43, 47, 53, 59, 61, 67,
   71, 73, 79, 83, 89, 97, 101, 103, 107, 109, 113, 127, 131, 137, 139,
   149, 151, 157, 163, 167, 173, 179, 181, 191, 193, 197, 199, 211, 223,
   227, 229, 233, 239, 241, 251, 257, 263, 269, 271, 277, 281, 283, 293,
   307, 311, 313, 317, 331, 337, 347, 349, 353, 359, 367, 373, 379, 383,
   389, 397, 401, 409]

/-- First 64 bits of the fractional part of the cube root of p. -/
def kConst (p : Nat) : Nat := icbrt (p * 2 ^ 192) % 2 ^ 64

/-- First 64 bits of the fractional part of the square root of p. -/
def hConst (p : Nat) : Nat := Nat.sqrt (p * 2 ^ 128) % 2 ^ 64

/-- The eighty SHA-512 round constants K. -/
def sha512K : List Nat := sha512Primes.map kConst

/-- The initial SHA-512 hash value H0 (square roots of the first eight
primes). -/
def sha512H0 : List Nat := (sha512Primes.take 8).map hConst

def w64mask : Nat := 2 ^ 64 - 1

def add64 (a b : Nat) : Nat := (a + b) % 2 ^ 64

def rotr64 (x n : Nat) : Nat := ((x >>> n) ||| (x <<< (64 - n))) &&& w64mask

def not64 (x : Nat) : Nat := x ^^^ w64mask

def bigSigma0 (x : Nat) : Nat := rotr64 x 28 ^^^ rotr64 x 34 ^^^ rotr64 x 39

def bigSigma1 (x : Nat) : Nat := rotr64 x 14 ^^^ rotr64 x 18 ^^^ rotr64 x 41

def smallSigma0 (x : Nat) : Nat := rotr64 x 1 ^^^ rotr64 x 8 ^^^ (x >>> 7)

def smallSigma1 (x : Nat) : Nat := rotr64 x 19 ^^^ rotr64 x 61 ^^^ (x >>> 6)

def chFn (e f g : Nat) : Nat := (e &&& f) ^^^ (not64 e &&& g)

def majFn (a b c : Nat) : Nat := (a &&& b) ^^^ (a &&& c) ^^^ (b &&& c)

/-- SHA-512 padding: append the 0x80 byte, zeros to 112 mod 128, then the
message bit length as 16 big-endian bytes. -/
def sha512Pad (msg : List Nat) : List Nat :=
  let l := msg.length
  let zeros := (128 + 112 - (l + 1) % 128) % 128
  msg ++ [0x80] ++ List.replicate zeros 0 ++
    ((List.range 16).map (fun i => (8 * l) >>> (8 * (15 - i)) % 256))

/-- Split the padded message into 128-byte blocks. -/
def toBlocksF : Nat → List Nat → List (List Nat)
  | 0, _ => []
  | _ + 1, [] => []
  | fuel + 1, l => l.take 128 :: toBlocksF fuel (l.drop 128)

def toBlocks (l : List Nat) : List (List Nat) := toBlocksF l.length l

/-- Big-endian 8-byte groups into 64-bit words. -/
def toWords : List Nat → List Nat
  | b0 :: b1 :: b2 :: b3 :: b4 :: b5 :: b6 :: b7 :: rest =>
      (((((((b0 <<< 8 ||| b1) <<< 8 ||| b2) <<< 8 ||| b3) <<< 8 ||| b4) <<< 8
        ||| b5) <<< 8 ||| b6) <<< 8 ||| b7) :: toWords rest
  | _ => []

/-- Message-schedule extension: append one word per fuel step until the
sixteen block words have grown to eighty. -/
def extendW : Nat → List Nat → List Nat
  | 0, ws => ws
  | fuel + 1, ws =>
      let n := ws.length
      let w := add64 (add64 (smallSigma1 (ws.getD (n - 2) 0)) (ws.getD (n - 7) 0))
        (add64 (smallSigma0 (ws.getD (n - 15) 0)) (ws.getD (n - 16) 0))
      extendW fuel (ws ++ [w])

/-- One compression round. -/
def sha512Round (st : Nat × Nat × Nat × Nat × Nat × Nat × Nat × Nat)
    (kw : Nat × Nat) : Nat × Nat × Nat × Nat × Nat × Nat × Nat × Nat :=
  let (a, b, c, d, e, f, g, h) := st
  let t1 := add64 (add64 (add64 h (bigSigma1 e)) (add64 (chFn e f g) kw.1)) kw.2
  let t2 := add64 (bigSigma0 a) (majFn a b c)
  (add64 t1 t2, a, b, c, add64 d t1, e, f, g)

/-- Compress one 128-byte block into the running hash (a list of eight
words). -/
def sha512Block (hv : List Nat) (block : List Nat) : List Nat :=
  let ws := extendW 64 (toWords block)
  let init : Nat × Nat × Nat × Nat × Nat × Nat × Nat × Nat :=
    (hv.getD 0 0, hv.getD 1 0, hv.getD 2 0, hv.getD 3 0,
     hv.getD 4 0, hv.getD 5 0, hv.getD 6 0, hv.getD 7 0)
  let (a, b, c, d, e, f, g, h) := (sha512K.zip ws).foldl sha512Round init
  [add64 (hv.getD 0 0) a, add64 (hv.getD 1 0) b, add64 (hv.getD 2 0) c,
   add64 (hv.getD 3 0) d, add64 (hv.getD 4 0) e, add64 (hv.getD 5 0) f,
   add64 (hv.getD 6 0) g, add64 (hv.getD 7 0) h]

def hexChar (d : Nat) : Char :=
  if d < 10 then Char.ofNat (48 + d) else Char.ofNat (87 + d)

/-- Sixteen lowercase hex digits of a 64-bit word. -/
def hex16 (n : Nat) : String :=
  String.mk ((List.range 16).map (fun i => hexChar ((n >>> (4 * (15 - i))) % 16)))

/-- SHA-512 of a byte list, as the lowercase hex digest hashlib returns. -/
def sha512Hex (msg : List Nat) : String :=
  let final := (toBlocks (sha512Pad msg)).foldl sha512Block sha512H0
  String.join (final.map hex16)

/-- UTF-8 encoding of one character. -/
def utf8Char (c : Char) : List Nat :=
  let n := c.toNat
  if n < 0x80 then [n]
  else if n < 0x800 then [0xC0 + n / 64, 0x80 + n % 64]
  else if n < 0x10000 then
    [0xE0 + n / 4096, 0x80 + (n / 64) % 64, 0x80 + n % 64]
  else
    [0xF0 + n / 262144, 0x80 + (n / 4096) % 64, 0x80 + (n / 64) % 64,
     0x80 + n % 64]

/-- str.encode(): UTF-8 bytes of a string. -/
def utf8Bytes (s : String) : List Nat :=
  s.data.foldr (fun c acc => utf8Char c ++ acc) []

/-- AlphaESSAPI._generate_signature: the SHA-512 hex digest of the
concatenation appId + appSecret + str(timestamp). -/
def generate_signature (app_id app_secret : String) (timestamp : Int) : String :=
  sha512Hex (utf8Bytes (app_id ++ app_secret ++ toString timestamp))

/-- AlphaESSAPI._get_headers with the wall clock passed explicitly: the
headers carry the appId, the stringified timestamp, the signature for that
same timestamp and the content type. -/
def get_headers (app_id app_secret : String) (now : Int) : List (String × String) :=
  [("appId", app_id),
   ("timeStamp", toString now),
   ("sign", generate_signature app_id app_secret now),
   ("Content-Type", "application/json")]

def nodupKeys : JObj → Bool
  | JObj.nil => true
  | JObj.cons k _ rest => (lookupKey rest k).isNone && nodupKeys rest

def untouchedBy : JObj → List String → Bool
  | _, [] => false
  | u, k :: p =>
      match lookupKey u k with
      | none => true
      | some (JVal.obj u') => untouchedBy u' p
      | some _ => false

def nodupAlong : JObj → List String → Bool
  | u, [] => nodupKeys u
  | u, k :: p =>
      nodupKeys u &&
      (match lookupKey u k with
       | some (JVal.obj u') => nodupAlong u' p
       | _ => true)

def getPath : JVal → List String → Option JVal
  | v, [] => some v
  | JVal.obj o, k :: p =>
      match lookupKey o k with
      | some v => getPath v p
      | none => none
  | _, _ :: _ => none

def JVal.isObj : JVal → Bool
  | JVal.obj _ => true
  | _ => false

def updNozzleRunning : JVal := JVal.obj (JObj.ofList
  [("print", JVal.obj (JObj.ofList
    [("nozzle_temper", JVal.num ⟨421, 2⟩), ("gcode_state", JVal.str "RUNNING")]))])

def updProgress : JVal := JVal.obj (JObj.ofList
  [("print", JVal.obj (JObj.ofList [("mc_percent", JVal.int 42)]))])

def updHotNozzle : JVal := JVal.obj (JObj.ofList
  [("print", JVal.obj (JObj.ofList [("nozzle_temper", JVal.str "hot")]))])

def emptySnapshot (now : String) : JObj :=
  JObj.ofList
    [("timestamp", JVal.str now),
     ("nozzle_temp", JVal.num ⟨0, 1⟩),
     ("nozzle_target_temp", JVal.num ⟨0, 1⟩),
     ("bed_temp", JVal.num ⟨0, 1⟩),
     ("bed_target_temp", JVal.num ⟨0, 1⟩),
     ("chamber_temp", JVal.num ⟨0, 1⟩),
     ("nozzle_diameter", JVal.num ⟨2, 5⟩),
     ("nozzle_type", JVal.str ""),
     ("gcode_state", JVal.str ""),
     ("print_type", JVal.str ""),
     ("print_percent", JVal.int 0),
     ("remaining_time_min", JVal.int 0),
     ("layer_num", JVal.int 0),
     ("total_layer_num", JVal.int 0),
     ("print_line_number", JVal.int 0),
     ("subtask_name", JVal.str ""),
     ("gcode_file", JVal.str ""),
     ("cooling_fan_speed", JVal.int 0),
     ("heatbreak_fan_speed", JVal.int 0),
     ("wifi_signal_dbm", JVal.int 0),
     ("print_error", JVal.int 0),
     ("has_errors", JVal.bool false),
     ("lights_report", JVal.arr []),
     ("chamber_light", JVal.str "unknown"),
     ("ipcam_record", JVal.str ""),
     ("timelapse", JVal.str "")]

def snapTimestamp (e : Except PyErr JObj) : String :=
  match e with
  | Except.ok o =>
      match lookupKey o "timestamp" with
      | some (JVal.str s) => s
      | _ => ""
  | Except.error _ => ""

def stripSuffixDBm (cs : List Char) : List Char :=
  if startsWithL ['m', 'B', 'd'] cs.reverse then (cs.reverse.drop 3).reverse else cs

/-- Modelled from the spec claim wording (C10 as stated): 0 for the empty
string and for any string that is not a valid integer after removing the
dBm SUFFIX, otherwise the parsed integer. -/
def specWifiParseSuffix (s : String) : Int :=
  if s = "" then 0 else (pyIntOfString (stripSuffixDBm s.data)).getD 0

/-- Modelled from the spec claim wording as amended: 0 for the empty string
and for any string that is not a valid integer after removing every
occurrence of dBm, otherwise the parsed integer. -/
def specWifiParseReplaceAll (s : String) : Int :=
  if s = "" then 0 else (pyIntOfString (pyReplaceDBm s.data)).getD 0

theorem lookup_setKey_self (o : JObj) (k : String) (v : JVal) :
    lookupKey (setKey o k v) k = some v := by
  match o with
  | JObj.nil => simp [setKey, lookupKey]
  | JObj.cons k0 v0 rest =>
      by_cases h : k0 = k
      · simp [setKey, h, lookupKey]
      · simp [setKey, h, lookupKey, lookup_setKey_self rest k v]

theorem lookup_setKey_ne (o : JObj) (k k' : String) (v : JVal) (h : k' ≠ k) :
    lookupKey (setKey o k v) k' = lookupKey o k' := by
  match o with
  | JObj.nil => simp [setKey, lookupKey, Ne.symm h]
  | JObj.cons k0 v0 rest =>
      by_cases h0 : k0 = k
      · subst h0
        simp [setKey, lookupKey, Ne.symm h]
      · simp [setKey, h0, lookupKey, lookup_setKey_ne rest k k' v h]

theorem lookup_deepMerge (u base : JObj) (k : String) (hnd : nodupKeys u = true) :
    lookupKey (deepMergeObj base u) k =
      match lookupKey u k with
      | some v => some (deepMergeVal (lookupKey base k) v)
      | none => lookupKey base k := by
  match u with
  | JObj.nil => simp [deepMergeObj, lookupKey]
  | JObj.cons k1 v rest =>
      simp only [nodupKeys, Bool.and_eq_true, Option.isNone_iff_eq_none] at hnd
      obtain ⟨h1, h2⟩ := hnd
      have step : deepMergeObj base (JObj.cons k1 v rest) =
          deepMergeObj (setKey base k1 (deepMergeVal (lookupKey base k1) v)) rest := rfl
      rw [step]
      rw [lookup_deepMerge rest (setKey base k1 (deepMergeVal (lookupKey base k1) v)) k h2]
      by_cases hk : k = k1
      · subst hk
        rw [h1, lookup_setKey_self]
        simp [lookupKey]
      · rw [lookup_setKey_ne _ _ _ _ hk]
        simp [lookupKey, Ne.symm hk]

theorem untouched_getPath_none (p : List String) (u : JObj)
    (h : untouchedBy u p = true) : getPath (JVal.obj u) p = none := by
  match p with
  | [] => simp [untouchedBy] at h
  | k :: p' =>
      simp only [getPath]
      cases hu : lookupKey u k with
      | none => rfl
      | some v =>
          cases v with
          | obj u' =>
              have h' : untouchedBy u' p' = true := by
                simpa [untouchedBy, hu] using h
              simpa using untouched_getPath_none p' u' h'
          | null => simp [untouchedBy, hu] at h
          | bool b => simp [untouchedBy, hu] at h
          | int n => simp [untouchedBy, hu] at h
          | num x => simp [untouchedBy, hu] at h
          | str s => simp [untouchedBy, hu] at h
          | arr xs => simp [untouchedBy, hu] at h

theorem getPath_cons_of_not_obj (v : JVal) (k : String) (p : List String)
    (h : ∀ o, v ≠ JVal.obj o) : getPath v (k :: p) = none := by
  cases v with
  | obj o => exact absurd rfl (h o)
  | null => rfl
  | bool b => rfl
  | int n => rfl
  | num x => rfl
  | str s => rfl
  | arr xs => rfl

theorem deepMerge_untouched (p : List String) (base u : JObj)
    (hnd : nodupAlong u p = true) (hun : untouchedBy u p = true) :
    getPath (JVal.obj (deepMergeObj base u)) p = getPath (JVal.obj base) p := by
  match p with
  | [] => simp [untouchedBy] at hun
  | k :: p' =>
      have hkeys : nodupKeys u = true := by
        simp only [nodupAlong, Bool.and_eq_true] at hnd
        exact hnd.1
      simp only [getPath]
      rw [lookup_deepMerge u base k hkeys]
      cases hu : lookupKey u k with
      | none => rfl
      | some v =>
          cases v with
          | obj u' =>
              have hun' : untouchedBy u' p' = true := by
                simpa [untouchedBy, hu] using hun
              have hnd' : nodupAlong u' p' = true := by
                simp only [nodupAlong, Bool.and_eq_true] at hnd
                simpa [hu] using hnd.2
              cases hb : lookupKey base k with
              | none =>
                  simp only [deepMergeVal]
                  simpa using untouched_getPath_none p' u' hun'
              | some w =>
                  cases w with
                  | obj b' =>
                      simp only [deepMergeVal]
                      exact deepMerge_untouched p' b' u' hnd' hun'
                  | null =>
                      simp only [deepMergeVal]
                      rw [untouched_getPath_none p' u' hun']
                      match p', hun' with
                      | k' :: p'', _ => rfl
                  | bool b =>
                      simp only [deepMergeVal]
                      rw [untouched_getPath_none p' u' hun']
                      match p', hun' with
                      | k' :: p'', _ => rfl
                  | int n =>
                      simp only [deepMergeVal]
                      rw [untouched_getPath_none p' u' hun']
                      match p', hun' with
                      | k' :: p'', _ => rfl
                  | num x =>
                      simp only [deepMergeVal]
                      rw [untouched_getPath_none p' u' hun']
                      match p', hun' with
                      | k' :: p'', _ => rfl
                  | str s =>
                      simp only [deepMergeVal]
                      rw [untouched_getPath_none p' u' hun']
                      match p', hun' with
                      | k' :: p'', _ => rfl
                  | arr xs =>
                      simp only [deepMergeVal]
                      rw [untouched_getPath_none p' u' hun']
                      match p', hun' with
                      | k' :: p'', _ => rfl
          | null => simp [untouchedBy, hu] at hun
          | bool b => simp [untouchedBy, hu] at hun
          | int n => simp [untouchedBy, hu] at hun
          | num x => simp [untouchedBy, hu] at hun
          | str s => simp [untouchedBy, hu] at hun
          | arr xs => simp [untouchedBy, hu] at hun

theorem update_fields (acc : PrinterStateAccumulator) (data : JVal) (now : String) :
    (acc.update data now).1.update_count = acc.update_count + 1 ∧
    (acc.update data now).1.last_update = some now := by
  cases data with
  | null => exact ⟨rfl, rfl⟩
  | bool b => exact ⟨rfl, rfl⟩
  | int n => exact ⟨rfl, rfl⟩
  | num x => exact ⟨rfl, rfl⟩
  | str s =>
      simp only [PrinterStateAccumulator.update, pyContains]
      cases isSubstrL "print".data s.data <;> simp [pyGetItemStr]
  | arr xs =>
      simp only [PrinterStateAccumulator.update, pyContains]
      cases xs.any (fun e => pyEqStr e "print") <;> simp [pyGetItemStr]
  | obj o =>
      simp only [PrinterStateAccumulator.update, pyContains]
      cases ho : lookupKey o "print" with
      | none => simp [pyGetItemStr, ho]
      | some w => cases w <;> simp [pyGetItemStr, ho]

theorem update_nonmapping (acc : PrinterStateAccumulator) (data : JVal) (now : String)
    (h : data.isObj = false) :
    (acc.update data now).1.state_print = acc.state_print := by
  cases data with
  | null => rfl
  | bool b => rfl
  | int n => rfl
  | num x => rfl
  | str s =>
      simp only [PrinterStateAccumulator.update, pyContains]
      cases isSubstrL "print".data s.data <;> simp [pyGetItemStr]
  | arr xs =>
      simp only [PrinterStateAccumulator.update, pyContains]
      cases xs.any (fun e => pyEqStr e "print") <;> simp [pyGetItemStr]
  | obj o => simp [JVal.isObj] at h

theorem applySeq_count (upds : List (JVal × String)) (acc : PrinterStateAccumulator) :
    (acc.applySeq upds).update_count = acc.update_count + upds.length := by
  match upds with
  | [] => simp [PrinterStateAccumulator.applySeq]
  | (d, t) :: rest =>
      have h := applySeq_count rest (acc.update d t).1
      simp only [PrinterStateAccumulator.applySeq] at h ⊢
      rw [h, (update_fields acc d t).1]
      simp [List.length]
      omega

/-- Claim C1 (incrementality): for every canonical document and every
update dict (unique keys along the path, as real dicts have), a path that
the update leaves untouched (absent from it, reached only through mapping
nodes of it) reads the same after the merge as before; and the example of
the spec: merging a.x=1 then a.y=2 into an empty document leaves both
under a, both at merge level and through two accumulator updates. -/
theorem claim_C1_incrementality :
    (∀ (p : List String) (base u : JObj),
      nodupAlong u p = true → untouchedBy u p = true →
      getPath (JVal.obj (deepMergeObj base u)) p = getPath (JVal.obj base) p) ∧
    deepMergeObj (deepMergeObj JObj.nil
        (JObj.ofList [("a", JVal.obj (JObj.ofList [("x", JVal.int 1)]))]))
      (JObj.ofList [("a", JVal.obj (JObj.ofList [("y", JVal.int 2)]))]) =
    JObj.ofList [("a", JVal.obj (JObj.ofList [("x", JVal.int 1), ("y", JVal.int 2)]))] ∧
    ((PrinterStateAccumulator.init.update
        (JVal.obj (JObj.ofList [("print", JVal.obj
          (JObj.ofList [("a", JVal.obj (JObj.ofList [("x", JVal.int 1)]))]))])) "t1").1.update
      (JVal.obj (JObj.ofList [("print", JVal.obj
        (JObj.ofList [("a", JVal.obj (JObj.ofList [("y", JVal.int 2)]))]))])) "t2").1.state_print =
    JObj.ofList [("a", JVal.obj (JObj.ofList [("x", JVal.int 1), ("y", JVal.int 2)]))] :=
  ⟨deepMerge_untouched, rfl, rfl⟩

/-- Witness for claim C1 at a concrete input: base a.x=1, update a.y=2,
path a.x is untouched, so the merged document still reads 1 there. -/
theorem claim_C1_incrementality_witness :
    getPath (JVal.obj (deepMergeObj
        (JObj.ofList [("a", JVal.obj (JObj.ofList [("x", JVal.int 1)]))])
        (JObj.ofList [("a", JVal.obj (JObj.ofList [("y", JVal.int 2)]))])))
      ["a", "x"] =
    getPath (JVal.obj (JObj.ofList [("a", JVal.obj (JObj.ofList [("x", JVal.int 1)]))]))
      ["a", "x"] :=
  claim_C1_incrementality.1 ["a", "x"]
    (JObj.ofList [("a", JVal.obj (JObj.ofList [("x", JVal.int 1)]))])
    (JObj.ofList [("a", JVal.obj (JObj.ofList [("y", JVal.int 2)]))])
    (by decide) (by decide)

/-- Claim C2 (overwrite rule): per key, the merge recurses exactly when
both the existing and the incoming value are dicts and otherwise stores the
incoming value wholesale; sequences are replaced, a scalar discards a prior
mapping. -/
theorem claim_C2_overwrite_rule :
    (∀ (base u : JObj) (k : String), nodupKeys u = true →
      lookupKey (deepMergeObj base u) k =
        match lookupKey u k, lookupKey base k with
        | some (JVal.obj uo), some (JVal.obj bo) =>
            some (JVal.obj (deepMergeObj bo uo))
        | some v, _ => some v
        | none, r => r) ∧
    deepMergeObj (deepMergeObj JObj.nil
        (JObj.ofList [("list", JVal.arr [JVal.int 1, JVal.int 2, JVal.int 3])]))
      (JObj.ofList [("list", JVal.arr [JVal.int 9])]) =
    JObj.ofList [("list", JVal.arr [JVal.int 9])] ∧
    deepMergeObj (deepMergeObj JObj.nil
        (JObj.ofList [("a", JVal.obj (JObj.ofList [("x", JVal.int 1)]))]))
      (JObj.ofList [("a", JVal.str "scalar")]) =
    JObj.ofList [("a", JVal.str "scalar")] := by
  refine ⟨?_, rfl, rfl⟩
  intro base u k h
  rw [lookup_deepMerge u base k h]
  cases hv : lookupKey u k with
  | none => cases lookupKey base k <;> rfl
  | some v =>
      cases v with
      | obj uo =>
          cases hb : lookupKey base k with
          | none => rfl
          | some w => cases w <;> rfl
      | null => cases hb : lookupKey base k with
          | none => rfl
          | some w => cases w <;> rfl
      | bool b => cases hb : lookupKey base k with
          | none => rfl
          | some w => cases w <;> rfl
      | int n => cases hb : lookupKey base k with
          | none => rfl
          | some w => cases w <;> rfl
      | num x => cases hb : lookupKey base k with
          | none => rfl
          | some w => cases w <;> rfl
      | str s => cases hb : lookupKey base k with
          | none => rfl
          | some w => cases w <;> rfl
      | arr xs => cases hb : lookupKey base k with
          | none => rfl
          | some w => cases w <;> rfl

/-- Witness for claim C2 at a concrete input: replacing list=[1,2,3] by
list=[9]. -/
theorem claim_C2_overwrite_rule_witness :
    lookupKey (deepMergeObj (JObj.ofList [("list", JVal.arr [JVal.int 1, JVal.int 2, JVal.int 3])])
      (JObj.ofList [("list", JVal.arr [JVal.int 9])])) "list" =
    some (JVal.arr [JVal.int 9]) :=
  claim_C2_overwrite_rule.1
    (JObj.ofList [("list", JVal.arr [JVal.int 1, JVal.int 2, JVal.int 3])])
    (JObj.ofList [("list", JVal.arr [JVal.int 9])]) "list" (by decide)

/-- Counterexample to claim C3 as stated: the empty list is not a mapping,
yet update() accepts it without any failure (and the canonical state is the
reason nothing changes, not a validation). -/
theorem claim_C3_invalid_update_cex :
    (PrinterStateAccumulator.init.update (JVal.arr []) "t").2.isOk = true ∧
    (JVal.arr []).isObj = false :=
  ⟨rfl, rfl⟩

/-- Claim C3 as amended: update() performs no top-level validation.  A
non-mapping argument never changes the canonical document but the update
counter is always incremented first; TypeError arises only incidentally
(membership test on a non-iterable such as an integer, or indexing a
string that happens to contain "print"), while other non-mappings such as
an empty list are accepted silently; and even a mapping argument can fail
(AttributeError when its "print" entry is not a dict). -/
theorem claim_C3_invalid_update :
    (∀ (acc : PrinterStateAccumulator) (data : JVal) (now : String),
      data.isObj = false →
      (acc.update data now).1.state_print = acc.state_print ∧
      (acc.update data now).1.update_count = acc.update_count + 1) ∧
    (∀ (acc : PrinterStateAccumulator) (now : String),
      (acc.update (JVal.int 0) now).2 = Except.error PyErr.typeError) ∧
    (PrinterStateAccumulator.init.update (JVal.arr []) "t").2.isOk = true ∧
    (PrinterStateAccumulator.init.update (JVal.str "xprintx") "t").2 =
      Except.error PyErr.typeError ∧
    (PrinterStateAccumulator.init.update
      (JVal.obj (JObj.ofList [("print", JVal.int 5)])) "t").2 =
      Except.error PyErr.attributeError := by
  refine ⟨?_, fun acc now => rfl, rfl, rfl, rfl⟩
  intro acc data now h
  exact ⟨update_nonmapping acc data now h, (update_fields acc data now).1⟩

/-- Witness for claim C3 at a concrete input: updating with None (not a
mapping) leaves the canonical document unchanged and increments the
counter. -/
theorem claim_C3_invalid_update_witness :
    (PrinterStateAccumulator.init.update JVal.null "t").1.state_print =
      PrinterStateAccumulator.init.state_print ∧
    (PrinterStateAccumulator.init.update JVal.null "t").1.update_count =
      PrinterStateAccumulator.init.update_count + 1 :=
  claim_C3_invalid_update.1 PrinterStateAccumulator.init JVal.null "t" rfl

/-- Counterexample to claim C4 as stated: on the empty canonical document
the declared numeric field nozzle_diameter derives as 0.4, not 0 or 0.0. -/
theorem claim_C4_default_filling_cex :
    (PrinterStateAccumulator.init.derive "t0").toOption.bind
      (fun o => lookupKey o "nozzle_diameter") = some (JVal.num ⟨2, 5⟩) ∧
    (⟨2, 5⟩ : PyFloat) ≠ ⟨0, 1⟩ ∧
    JVal.num ⟨2, 5⟩ ≠ JVal.int 0 :=
  ⟨rfl, by decide, by simp⟩

/-- Claim C4 as amended: deriving from the empty canonical document fills
every declared numeric field with 0 or 0.0 except nozzle_diameter, whose
documented default is 0.4; string fields derive as "", the enumerated
chamber light status as "unknown", the lights sequence as [], and the
timestamp echoes the derivation time (shown at two sample instants). -/
theorem claim_C4_default_filling :
    PrinterStateAccumulator.init.derive "t0" = Except.ok (emptySnapshot "t0") ∧
    PrinterStateAccumulator.init.derive "t1" = Except.ok (emptySnapshot "t1") :=
  ⟨rfl, rfl⟩

/-- Counterexample to claim C5 as stated: on a freshly constructed
accumulator (no apply yet) the derivation timestamp is the wall clock at
call time, so two derivations with no intervening apply() differ in the
timestamp field. -/
theorem claim_C5_idempotent_cex :
    snapTimestamp (PrinterStateAccumulator.init.derive "t1") = "t1" ∧
    snapTimestamp (PrinterStateAccumulator.init.derive "t2") = "t2" ∧
    PrinterStateAccumulator.init.derive "t1" ≠ PrinterStateAccumulator.init.derive "t2" := by
  refine ⟨rfl, rfl, ?_⟩
  intro h
  have h2 := congrArg snapTimestamp h
  have e1 : snapTimestamp (PrinterStateAccumulator.init.derive "t1") = "t1" := rfl
  have e2 : snapTimestamp (PrinterStateAccumulator.init.derive "t2") = "t2" := rfl
  rw [e1, e2] at h2
  exact absurd h2 (by decide)

/-- Claim C5 as amended: derivation is a pure function of the accumulated
document and the stored last-update timestamp; once at least one apply()
has happened (so a nonempty last-update timestamp is stored), repeated
derivations with no intervening apply() are identical whatever the wall
clock reads, both at state level and at snapshot level. -/
theorem claim_C5_idempotent_derivation :
    ∀ (acc : PrinterStateAccumulator) (t now₁ now₂ : String),
      acc.last_update = some t → t ≠ "" →
      acc.get_state now₁ = acc.get_state now₂ ∧
      acc.derive now₁ = acc.derive now₂ := by
  intro acc t n1 n2 h ht
  have hs : acc.get_state n1 = acc.get_state n2 := by
    simp only [PrinterStateAccumulator.get_state, h, if_neg ht]
  exact ⟨hs, by simp only [PrinterStateAccumulator.derive, hs]⟩

/-- Witness for claim C5 at a concrete input: an accumulator whose last
update happened at "t0" derives identically at wall clocks "a" and "b". -/
theorem claim_C5_idempotent_derivation_witness :
    (PrinterStateAccumulator.mk JObj.nil (some "t0") 1).get_state "a" =
      (PrinterStateAccumulator.mk JObj.nil (some "t0") 1).get_state "b" ∧
    (PrinterStateAccumulator.mk JObj.nil (some "t0") 1).derive "a" =
      (PrinterStateAccumulator.mk JObj.nil (some "t0") 1).derive "b" :=
  claim_C5_idempotent_derivation (PrinterStateAccumulator.mk JObj.nil (some "t0") 1)
    "t0" "a" "b" rfl (by decide)

/-- Claim C6 (end-to-end): applying the nozzle/state update then the
progress update to a fresh accumulator derives one snapshot carrying values
from both: nozzle temperature 210.5, state RUNNING and progress 42. -/
theorem claim_C6_end_to_end :
    (((PrinterStateAccumulator.init.update updNozzleRunning "t1").1.update
        updProgress "t2").2.bind PrinterState.get_snapshot).toOption.bind
      (fun o => lookupKey o "nozzle_temp") = some (JVal.num ⟨421, 2⟩) ∧
    (((PrinterStateAccumulator.init.update updNozzleRunning "t1").1.update
        updProgress "t2").2.bind PrinterState.get_snapshot).toOption.bind
      (fun o => lookupKey o "gcode_state") = some (JVal.str "RUNNING") ∧
    (((PrinterStateAccumulator.init.update updNozzleRunning "t1").1.update
        updProgress "t2").2.bind PrinterState.get_snapshot).toOption.bind
      (fun o => lookupKey o "print_percent") = some (JVal.int 42) ∧
    ((PrinterStateAccumulator.init.update updNozzleRunning "t1").1.update
        updProgress "t2").2.bind PrinterState.get_snapshot =
      Except.ok (JObj.ofList
        [("timestamp", JVal.str "t2"),
         ("nozzle_temp", JVal.num ⟨421, 2⟩),
         ("nozzle_target_temp", JVal.num ⟨0, 1⟩),
         ("bed_temp", JVal.num ⟨0, 1⟩),
         ("bed_target_temp", JVal.num ⟨0, 1⟩),
         ("chamber_temp", JVal.num ⟨0, 1⟩),
         ("nozzle_diameter", JVal.num ⟨2, 5⟩),
         ("nozzle_type", JVal.str ""),
         ("gcode_state", JVal.str "RUNNING"),
         ("print_type", JVal.str ""),
         ("print_percent", JVal.int 42),
         ("remaining_time_min", JVal.int 0),
         ("layer_num", JVal.int 0),
         ("total_layer_num", JVal.int 0),
         ("print_line_number", JVal.int 0),
         ("subtask_name", JVal.str ""),
         ("gcode_file", JVal.str ""),
         ("cooling_fan_speed", JVal.int 0),
         ("heatbreak_fan_speed", JVal.int 0),
         ("wifi_signal_dbm", JVal.int 0),
         ("print_error", JVal.int 0),
         ("has_errors", JVal.bool false),
         ("lights_report", JVal.arr []),
         ("chamber_light", JVal.str "unknown"),
         ("ipcam_record", JVal.str ""),
         ("timelapse", JVal.str "")]) :=
  ⟨rfl, rfl, rfl, rfl⟩

/-- Claim C7 (reset): reset restores the freshly constructed accumulator
exactly, so a derivation after reset equals a derivation on a fresh
accumulator; the update counter is 0 right after reset and counts one per
apply since construction or since the last reset. -/
theorem claim_C7_reset :
    ∀ (acc : PrinterStateAccumulator) (now : String) (upds : List (JVal × String)),
      acc.reset = PrinterStateAccumulator.init ∧
      acc.reset.derive now = PrinterStateAccumulator.init.derive now ∧
      acc.reset.update_count = 0 ∧
      (acc.reset.applySeq upds).update_count = upds.length ∧
      (PrinterStateAccumulator.init.applySeq upds).update_count = upds.length := by
  intro acc now upds
  refine ⟨rfl, rfl, rfl, ?_, ?_⟩ <;>
    simp [applySeq_count, PrinterStateAccumulator.reset, PrinterStateAccumulator.init]

/-- Counterexample to claim C8 as stated: the mapping update that stores
the non-numeric nozzle_temper "hot" is accepted by the merge, but the state
rebuild inside update() raises ValueError, so an error does surface. -/
theorem claim_C8_malformed_cex :
    updHotNozzle.isObj = true ∧
    (PrinterStateAccumulator.init.update updHotNozzle "t").2 =
      Except.error PyErr.valueError :=
  ⟨rfl, rfl⟩

/-- Claim C8 as amended: the merge itself stores malformed nested values
as-is without validation (the canonical document really holds the string
"hot" under nozzle_temper), but derivation is only defensive for the
wifi-signal field (any string parses, defaulting to 0); for the declared
numeric fields it applies float()/int() and surfaces ValueError on
non-convertible values. -/
theorem claim_C8_malformed_tolerated :
    lookupKey (PrinterStateAccumulator.init.update updHotNozzle "t").1.state_print
      "nozzle_temper" = some (JVal.str "hot") ∧
    (PrinterStateAccumulator.init.update updHotNozzle "t").2 =
      Except.error PyErr.valueError ∧
    (PrinterState.from_mqtt_data
      (JObj.cons "print" (JVal.obj (JObj.cons "wifi_signal" (JVal.str "garbage") JObj.nil))
        JObj.nil) "t").isOk = true ∧
    parse_wifi_signal (JVal.str "garbage") = 0 :=
  ⟨rfl, rfl, rfl, rfl⟩

/-- Claim C9 (signed-request helper): the token is the SHA-512 hex digest
of appId + appSecret + str(timestamp) in that order, deterministically, and
_get_headers attaches exactly that token under sign together with the same
stringified timestamp under timeStamp (and the appId itself). -/
theorem claim_C9_signed_request :
    ∀ (app_id app_secret : String) (t : Int),
      generate_signature app_id app_secret t =
        sha512Hex (utf8Bytes (app_id ++ app_secret ++ toString t)) ∧
      List.lookup "sign" (get_headers app_id app_secret t) =
        some (generate_signature app_id app_secret t) ∧
      List.lookup "timeStamp" (get_headers app_id app_secret t) = some (toString t) ∧
      List.lookup "appId" (get_headers app_id app_secret t) = some app_id := by
  intro app_id app_secret t
  refine ⟨rfl, ?_, ?_, ?_⟩ <;> simp [get_headers, List.lookup]

/-- Counterexample to claim C10 as stated: _parse_wifi_signal removes every
occurrence of dBm, not just a suffix, so "dBm-34" (which has no dBm suffix
and is no valid integer) parses as -34 where the claim demands 0. -/
theorem claim_C10_wifi_parse_cex :
    parse_wifi_signal (JVal.str "dBm-34") = -34 ∧
    specWifiParseSuffix "dBm-34" = 0 ∧
    (-34 : Int) ≠ 0 :=
  ⟨rfl, rfl, by decide⟩

/-- Claim C10 as amended: wifi-signal parsing is total on strings and never
raises: it returns 0 for the empty string and for any string that is not a
valid Python integer literal after removing every occurrence of dBm, and
otherwise returns that parsed integer. -/
theorem claim_C10_wifi_parse :
    ∀ s : String, parse_wifi_signal (JVal.str s) = specWifiParseReplaceAll s := by
  intro s
  by_cases h : s = ""
  · subst h
    rfl
  · simp [parse_wifi_signal, specWifiParseReplaceAll, pyFalsy, h]
